import Mathlib

/-!
Shallow embedding of the WeightTracker repository (models.py, database.py,
main.py, visualization.py) with theorems checking the natural-language
specification against the code.
-/

/-!
### models.py : datetime values and ISO-8601 serialization

Python datetime values are embedded as explicit calendar fields with an
optional fixed UTC offset in minutes; a missing offset models a naive
datetime. The functions isoformat and fromisoformat below embed
datetime.isoformat / datetime.fromisoformat on this representation,
including the range checks the Python datetime constructor performs.
-/

/-- Calendar-field representation of a Python datetime; tzOffsetMinutes is
the fixed UTC offset of an aware value and none for a naive value. -/
structure PyDateTime where
  year : Nat
  month : Nat
  day : Nat
  hour : Nat
  minute : Nat
  second : Nat
  microsecond : Nat
  tzOffsetMinutes : Option Int
deriving DecidableEq

/-- Gregorian leap-year rule used by the Python calendar. -/
def isLeapYear (y : Nat) : Bool :=
  y % 4 == 0 && (y % 100 != 0 || y % 400 == 0)

/-- Number of days in a month of a given year. -/
def daysInMonth (y m : Nat) : Nat :=
  if m = 2 then (if isLeapYear y then 29 else 28)
  else if m = 4 ∨ m = 6 ∨ m = 9 ∨ m = 11 then 30
  else 31

/-- Field ranges the Python datetime constructor accepts (MINYEAR = 1,
MAXYEAR = 9999), together with the strict one-day bound a fixed-offset
timezone admits (whole minutes, magnitude at most 23 h 59 min). -/
def PyDateTime.valid (t : PyDateTime) : Bool :=
  1 ≤ t.year && t.year ≤ 9999 && 1 ≤ t.month && t.month ≤ 12 &&
  1 ≤ t.day && t.day ≤ daysInMonth t.year t.month &&
  t.hour ≤ 23 && t.minute ≤ 59 && t.second ≤ 59 && t.microsecond ≤ 999999 &&
  (match t.tzOffsetMinutes with
   | some off => off.natAbs ≤ 1439
   | none => true)

/-- Embedding of timestamp.replace(microsecond=0). -/
def PyDateTime.replaceMicrosecond0 (t : PyDateTime) : PyDateTime :=
  { t with microsecond := 0 }

/-- Decimal digit character: 0 ↦ '0', ..., 9 ↦ '9'. -/
def digitChar (n : Nat) : Char := Char.ofNat (48 + n)

/-- Two-digit zero-padded decimal rendering. -/
def pad2 (n : Nat) : List Char := [digitChar (n / 10), digitChar (n % 10)]

/-- Four-digit zero-padded decimal rendering. -/
def pad4 (n : Nat) : List Char := pad2 (n / 100) ++ pad2 (n % 100)

/-- Six-digit zero-padded decimal rendering. -/
def pad6 (n : Nat) : List Char := pad2 (n / 10000) ++ pad4 (n % 10000)

/-- UTC-offset suffix of datetime.isoformat: sign, hours, ':', minutes. -/
def offsetChars (off : Int) : List Char :=
  (if off < 0 then '-' else '+') ::
    (pad2 (off.natAbs / 60) ++ ':' :: pad2 (off.natAbs % 60))

/-- Character list produced by datetime.isoformat: the date, 'T', the time,
a fractional part only when microsecond is nonzero, and the UTC offset only
for aware values. -/
def isoformatList (t : PyDateTime) : List Char :=
  pad4 t.year ++ '-' :: pad2 t.month ++ '-' :: pad2 t.day ++
  'T' :: pad2 t.hour ++ ':' :: pad2 t.minute ++ ':' :: pad2 t.second ++
  (if t.microsecond = 0 then [] else '.' :: pad6 t.microsecond) ++
  (match t.tzOffsetMinutes with
   | some off => offsetChars off
   | none => [])

/-- Embedding of datetime.isoformat as a String. -/
def PyDateTime.isoformat (t : PyDateTime) : String := ⟨isoformatList t⟩

/-- Reads one decimal digit character. -/
def readDigit (c : Char) : Option Nat :=
  if 48 ≤ c.toNat ∧ c.toNat ≤ 57 then some (c.toNat - 48) else none

/-- Reads a two-digit decimal number. -/
def read2 : List Char → Option (Nat × List Char)
  | c1 :: c2 :: rest => do
      let d1 ← readDigit c1
      let d2 ← readDigit c2
      pure (d1 * 10 + d2, rest)
  | _ => none

/-- Reads a four-digit decimal number. -/
def read4 (cs : List Char) : Option (Nat × List Char) := do
  let (a, cs1) ← read2 cs
  let (b, cs2) ← read2 cs1
  pure (a * 100 + b, cs2)

/-- Requires the next character to be the given one. -/
def readExact (c : Char) : List Char → Option (List Char)
  | c1 :: rest => if c1 = c then some rest else none
  | [] => none

/-- Reads an optional six-digit fractional-second part introduced by a
dot; absent part yields 0 microseconds. -/
def readFraction : List Char → Option (Nat × List Char)
  | '.' :: rest => do
      let (a, r1) ← read2 rest
      let (b, r2) ← read2 r1
      let (c, r3) ← read2 r2
      pure (a * 10000 + b * 100 + c, r3)
  | cs => some (0, cs)

/-- Reads an optional trailing UTC offset (sign, two-digit hours, ':',
two-digit minutes); an empty remainder yields a naive value, anything
else is rejected, as fromisoformat raises on trailing garbage. -/
def readOffset : List Char → Option (Option Int)
  | [] => some none
  | c :: rest =>
      if c = '+' ∨ c = '-' then do
        let (h, r1) ← read2 rest
        let r2 ← readExact ':' r1
        let (m, r3) ← read2 r2
        match r3 with
        | [] =>
            if m ≤ 59 ∧ h * 60 + m ≤ 1439 then
              some (some (if c = '-' then -((h * 60 + m : Nat) : Int)
                          else ((h * 60 + m : Nat) : Int)))
            else none
        | _ => none
      else none

/-- Embedding of datetime.fromisoformat on character lists: parses
YYYY-MM-DDTHH:MM:SS with optional fraction and offset, then applies the
constructor range checks; none models a raised ValueError. -/
def fromisoformatList (cs : List Char) : Option PyDateTime := do
  let (y, r1) ← read4 cs
  let r2 ← readExact '-' r1
  let (mo, r3) ← read2 r2
  let r4 ← readExact '-' r3
  let (d, r5) ← read2 r4
  let r6 ← readExact 'T' r5
  let (h, r7) ← read2 r6
  let r8 ← readExact ':' r7
  let (mi, r9) ← read2 r8
  let r10 ← readExact ':' r9
  let (s, r11) ← read2 r10
  let (us, r12) ← readFraction r11
  let tz ← readOffset r12
  let t : PyDateTime := ⟨y, mo, d, h, mi, s, us, tz⟩
  if t.valid then some t else none

/-- Embedding of datetime.fromisoformat on Strings. -/
def fromisoformat (s : String) : Option PyDateTime := fromisoformatList s.toList

/-!
### models.py : WeightRecord

Weights and meal offsets are Python floats; they are embedded as rationals
(every float is a rational, and the only operation the code applies to
them, float(), is the identity on numbers). Rational constants written as
explicit numerator/denominator terms keep kernel evaluation structural.
-/

/-- Embedding of the WeightRecord dataclass of models.py. -/
structure WeightRecord where
  weight : Rat
  timestamp : PyDateTime
  time_after_meal : Rat
  edited : Bool := false
deriving DecidableEq

/-- Rational constant 1/2. -/
def ratHalf : Rat := ⟨1, 2, by decide, Nat.coprime_one_left 2⟩

/-- Rational constant 3/2. -/
def rat3Half : Rat := ⟨3, 2, by decide, by norm_num⟩

/-- Rational constant 5/2. -/
def rat5Half : Rat := ⟨5, 2, by decide, by norm_num⟩

/-- Rational constant 7/2. -/
def rat7Half : Rat := ⟨7, 2, by decide, by norm_num⟩

/-- Embedding of WeightRecord.TIME_AFTER_MEAL_OPTIONS: the enumerated
meal-offset values with their fixed display labels. -/
def WeightRecord.TIME_AFTER_MEAL_OPTIONS : List (Rat × String) :=
  [ (ratHalf, "30分"), (1, "1時間"), (rat3Half, "1時間30分"), (2, "2時間"),
    (rat5Half, "2時間30分"), (3, "3時間"), (rat7Half, "3時間30分以上") ]

/-- Loop body of get_time_after_meal_display: first matching option wins,
fall through to the unknown sentinel. -/
def lookupDisplay (v : Rat) : List (Rat × String) → String
  | [] => "不明"
  | (tv, txt) :: rest => if tv = v then txt else lookupDisplay v rest

/-- Embedding of WeightRecord.get_time_after_meal_display. -/
def WeightRecord.get_time_after_meal_display (v : Rat) : String :=
  lookupDisplay v WeightRecord.TIME_AFTER_MEAL_OPTIONS

/-- Flat stored mapping for one record; each field is some value when the
key is present and none when absent (a missing key makes from_dict
raise, which the Except models). -/
structure RawDict where
  weight : Option Rat
  timestamp : Option String
  time_after_meal : Option Rat
  edited : Option Bool
deriving DecidableEq

/-- Embedding of WeightRecord.to_dict: microseconds are dropped before
ISO serialization; all four keys are always written. -/
def WeightRecord.to_dict (r : WeightRecord) : RawDict :=
  { weight := some r.weight
  , timestamp := some r.timestamp.replaceMicrosecond0.isoformat
  , time_after_meal := some r.time_after_meal
  , edited := some r.edited }

/-- Embedding of WeightRecord.from_dict: required keys raise KeyError when
absent, an unparsable timestamp raises ValueError, and a missing edited
key defaults to false via dict.get. -/
def WeightRecord.from_dict (d : RawDict) : Except String WeightRecord :=
  match d.weight with
  | none => Except.error "KeyError: weight"
  | some w =>
    match d.timestamp with
    | none => Except.error "KeyError: timestamp"
    | some ts =>
      match fromisoformat ts with
      | none => Except.error "ValueError: invalid isoformat string"
      | some t =>
        match d.time_after_meal with
        | none => Except.error "KeyError: time_after_meal"
        | some m =>
          Except.ok { weight := w, timestamp := t, time_after_meal := m,
                      edited := d.edited.getD false }

deriving instance DecidableEq for Except

/-!
### database.py : WeightDatabase.get_records

The remote fetch self.ref.get() is modelled as an Except value carrying
either an error (a raised store exception), none (an empty reference), or
the stored insertion-ordered association list of (record id, raw dict).
Python dict iteration follows insertion order. Python's sorted() is a
stable sort; any stable sort computes the same output list, so a stable
insertion sort stands in for it. Datetime comparison is embedded through
an absolute-microseconds key: for aware values this is the instant
(offset subtracted), for naive values the same formula with offset 0,
which coincides with Python's field-lexicographic naive order.
-/

/-- Days since 1970-01-01 of a Gregorian date (civil-days algorithm). -/
def daysFromCivil (y m d : Int) : Int :=
  let y2 := if m ≤ 2 then y - 1 else y
  let era := y2.fdiv 400
  let yoe := y2 - era * 400
  let mp := (m + 9).emod 12
  let doy := (153 * mp + 2).fdiv 5 + d - 1
  let doe := yoe * 365 + yoe.fdiv 4 - yoe.fdiv 100 + doy
  era * 146097 + doe - 719468

/-- Total-order key of a datetime: microseconds since the epoch, with the
UTC offset subtracted for aware values and taken as 0 for naive values. -/
def PyDateTime.sortKey (t : PyDateTime) : Int :=
  (daysFromCivil t.year t.month t.day * 86400
    + t.hour * 3600 + t.minute * 60 + t.second
    - t.tzOffsetMinutes.getD 0 * 60) * 1000000 + t.microsecond

/-- Embedding of datetime ordering used by the filter bounds and the sort
key of get_records. -/
def dtLe (a b : PyDateTime) : Bool := a.sortKey ≤ b.sortKey

/-- Inserts an element into a sorted list, before the first element it is
not greater than; keeps earlier elements of equal key first. -/
def insertStable (le : α → α → Bool) (x : α) : List α → List α
  | [] => [x]
  | y :: ys => if le x y then x :: y :: ys else y :: insertStable le x ys

/-- Stable insertion sort; extensionally equal to Python's sorted(). -/
def sortedStable (le : α → α → Bool) (l : List α) : List α :=
  l.foldr (insertStable le) []

/-- Loop body of get_records: deserialize each stored entry in insertion
order, attach the record id, and filter by the date bounds only when both
are given; a raised deserialization error propagates. -/
def recordLoop (sd ed : Option PyDateTime) :
    List (String × RawDict) → Except String (List (String × WeightRecord))
  | [] => Except.ok []
  | (rid, data) :: rest => do
      let r ← WeightRecord.from_dict data
      let tail ← recordLoop sd ed rest
      match sd, ed with
      | some s, some e =>
          if dtLe s r.timestamp && dtLe r.timestamp e then
            Except.ok ((rid, r) :: tail)
          else
            Except.ok tail
      | _, _ => Except.ok ((rid, r) :: tail)

/-- Embedding of WeightDatabase.get_records: a store error or a raised
deserialization error is caught and yields the empty list; a missing
reference (none) acts as the empty mapping; the surviving records are
sorted by timestamp. -/
def get_records (fetched : Except String (Option (List (String × RawDict))))
    (start_date end_date : Option PyDateTime) : List (String × WeightRecord) :=
  match (do
      let stored ← fetched
      recordLoop start_date end_date (stored.getD [])) with
  | Except.error _ => []
  | Except.ok l => sortedStable (fun a b => dtLe a.2.timestamp b.2.timestamp) l

/-!
### main.py : login-attempt throttling

Times are embedded as integer epoch seconds. The per-identity entry of
st.session_state login_attempts is the AttemptState below; the dict get
default gives the initial state count = 0, locked_until = none.
-/

/-- Per-identity login-attempt entry of the session state. -/
structure AttemptState where
  count : Nat
  locked_until : Option Int
deriving DecidableEq

/-- Initial per-identity state used as the dict get default. -/
def initialAttemptState : AttemptState := ⟨0, none⟩

/-- Embedding of is_account_locked. -/
def is_account_locked (now : Int) (s : AttemptState) : Bool :=
  match s.locked_until with
  | some t => now < t
  | none => false

/-- Embedding of get_remaining_lock_time: int of total remaining seconds
divided by 60, and 0 when not locked. -/
def get_remaining_lock_time (now : Int) (s : AttemptState) : Nat :=
  match s.locked_until with
  | some t => if now < t then (t - now).toNat / 60 else 0
  | none => 0

/-- Embedding of check_login_attempts (MAX_ATTEMPTS = 3): defined in
main.py but called from nowhere in the repository; returned with the
state it would leave behind. -/
def check_login_attempts (now : Int) (s : AttemptState) : Bool × AttemptState :=
  match s.locked_until with
  | some t =>
      if now < t then (false, s)
      else (true, ⟨0, none⟩)
  | none => (s.count < 3, s)

/-- Embedding of increment_login_attempts (MAX_ATTEMPTS = 3,
LOCK_TIME_MINUTES = 15). -/
def increment_login_attempts (now : Int) (s : AttemptState) : AttemptState :=
  let c := s.count + 1
  if 3 ≤ c then ⟨c, some (now + 15 * 60)⟩ else ⟨c, s.locked_until⟩

/-- Embedding of reset_login_attempts. -/
def reset_login_attempts : AttemptState := ⟨0, none⟩

/-- User-visible outcome of one interaction with the login form. -/
inductive LoginOutcome where
  | success : LoginOutcome
  | lockedMsg : Nat → LoginOutcome
  | wrongPassword : Int → LoginOutcome
  | buttonDisabled : LoginOutcome
deriving DecidableEq

/-- Embedding of the login-button path of login_page: the button is
disabled while is_account_locked holds; a successful authentication
resets the counter; a failure increments it and reports either the lock
message with the remaining minutes or the remaining attempts 3 - count. -/
def loginAttempt (now : Int) (authOk : Bool) (s : AttemptState) :
    LoginOutcome × AttemptState :=
  if is_account_locked now s then
    (LoginOutcome.buttonDisabled, s)
  else if authOk then
    (LoginOutcome.success, reset_login_attempts)
  else
    let s2 := increment_login_attempts now s
    match s2.locked_until with
    | some _ => (LoginOutcome.lockedMsg (get_remaining_lock_time now s2), s2)
    | none => (LoginOutcome.wrongPassword (3 - (s2.count : Int)), s2)

/-!
### visualization.py : WeightVisualizer

Timestamps are embedded as integer epoch seconds of the fixed reference
timezone; now is an explicit parameter (the code reads the wall clock).
The transcendental pieces the code delegates to numpy and scikit-learn
are abstracted as function parameters: sin2pi and cos2pi stand for
x maps-to sin(2 pi x) and cos(2 pi x) applied to hour / 24, sqrtF for the
square root inside the standard deviation, and model for the fitted
GradientBoostingRegressor composed with scaler.transform and the feature
vector of the forecast loop, as a function of the day offset and the
trailing change rate (the only loop-dependent feature inputs once now is
fixed). None of their numeric outputs affect the stated properties.
-/

/-- One weight record as the visualizer consumes it. -/
structure VizRecord where
  weight : Rat
  timestamp : Int
  time_after_meal : Rat
deriving DecidableEq

/-- Embedding of timedelta.days for a difference of epoch seconds: floor
division by 86400. -/
def tsDays (a b : Int) : Int := (a - b).fdiv 86400

/-- Hour-of-day of an epoch-seconds timestamp. -/
def tsHour (ts : Int) : Nat := (ts.emod 86400).toNat / 3600

/-- Python weekday (Monday = 0) of an epoch-seconds timestamp; the epoch
day was a Thursday. -/
def tsWeekday (ts : Int) : Nat := ((ts.fdiv 86400 + 3).emod 7).toNat

/-- Feature vector of one historical record in _prepare_data: day offset
from now, meal offset, hour, weekday, the two cyclic encodings, and the
trailing weight-change rate against the previous record. -/
def featureRow (sin2pi cos2pi : Rat → Rat) (now : Int)
    (prev : Option VizRecord) (r : VizRecord) : List Rat :=
  [ ((tsDays r.timestamp now : Int) : Rat)
  , r.time_after_meal
  , (tsHour r.timestamp : Rat)
  , (tsWeekday r.timestamp : Rat)
  , sin2pi ((tsHour r.timestamp : Rat) / 24)
  , cos2pi ((tsHour r.timestamp : Rat) / 24)
  , match prev with
    | some p =>
        let dd := tsDays r.timestamp p.timestamp
        if 0 < dd then (r.weight - p.weight) / (dd : Rat) else 0
    | none => 0 ]

/-- Feature rows of a record list, each paired with its predecessor. -/
def featureRows (sin2pi cos2pi : Rat → Rat) (now : Int) :
    Option VizRecord → List VizRecord → List (List Rat)
  | _, [] => []
  | prev, r :: rest =>
      featureRow sin2pi cos2pi now prev r ::
        featureRows sin2pi cos2pi now (some r) rest

/-- Sum of a list of rationals. -/
def listSum (l : List Rat) : Rat := l.foldl (· + ·) 0

/-- Column j of a feature matrix. -/
def colVals (X : List (List Rat)) (j : Nat) : List Rat :=
  X.map (fun row => row.getD j 0)

/-- Column mean of a feature matrix. -/
def colMean (X : List (List Rat)) (j : Nat) : Rat :=
  listSum (colVals X j) / (X.length : Rat)

/-- Column variance of a feature matrix. -/
def colVar (X : List (List Rat)) (j : Nat) : Rat :=
  listSum ((colVals X j).map (fun x => (x - colMean X j) ^ 2)) / (X.length : Rat)

/-- Embedding of StandardScaler.fit_transform: per-column centering and
scaling by the standard deviation, a zero deviation scaling by 1. -/
def fit_transform (sqrtF : Rat → Rat) (X : List (List Rat)) : List (List Rat) :=
  X.map (fun row =>
    row.enum.map (fun p =>
      let mu := colMean X p.1
      let sigma := sqrtF (colVar X p.1)
      (p.2 - mu) / (if sigma = 0 then 1 else sigma)))

/-- Embedding of WeightVisualizer._prepare_data: empty history yields
empty arrays; otherwise the standardized feature matrix and the target
weights. -/
def prepare_data (sin2pi cos2pi sqrtF : Rat → Rat) (now : Int)
    (records : List VizRecord) : List (List Rat) × List Rat :=
  if records.isEmpty then ([], [])
  else
    (fit_transform sqrtF (featureRows sin2pi cos2pi now none records),
     records.map (fun r => r.weight))

/-- Autoregressive forecast loop of _predict_future: one prediction per
day offset, the trailing change rate fed forward (seeded at 0, previous
weight seeded at the last observed target). -/
def predictLoop (model : Nat → Rat → Rat) (now : Int) :
    Nat → Nat → Rat → Rat → List Int × List Rat
  | 0, _, _, _ => ([], [])
  | n + 1, day, lastWeight, lastChange =>
      let futureDate := now + (day : Int) * 86400
      let pred := model day lastChange
      let rest := predictLoop model now n (day + 1) pred (pred - lastWeight)
      (futureDate :: rest.1, pred :: rest.2)

/-- Embedding of WeightVisualizer._predict_future: fewer than 5 feature
rows yield the empty forecast; otherwise days predictions at day offsets
1..days from now. -/
def predict_future (model : Nat → Rat → Rat) (X : List (List Rat))
    (y : List Rat) (now : Int) (days : Nat := 30) : List Int × List Rat :=
  if X.length < 5 then ([], [])
  else predictLoop model now days 1 (y.getLast?.getD 0) 0

/-- One plotted series of the chart: x values and y values. -/
inductive Trace where
  | actual : List Int → List Rat → Trace
  | forecast : List Int → List Rat → Trace
deriving DecidableEq

/-- Window filter of the visualizer constructor: records with
start_date ≤ timestamp ≤ end_date, inclusive both ends. -/
def displayFilter (startT endT : Int) (records : List VizRecord) : List VizRecord :=
  records.filter (fun r => startT ≤ r.timestamp && r.timestamp ≤ endT)

/-- Embedding of the per-user block of create_graph: nothing is plotted
when the windowed list is empty; otherwise the actual series, and when
the toggle is on and the full history nonempty and the forecast
nonempty, the forecast series computed from the FULL history, prepended
with the last windowed record for visual continuity. -/
def userTraces (sin2pi cos2pi sqrtF : Rat → Rat) (model : Nat → Rat → Rat)
    (now startT endT : Int) (show_prediction : Bool)
    (records : List VizRecord) : List Trace :=
  let disp := displayFilter startT endT records
  if disp.isEmpty then []
  else
    let actualTrace := Trace.actual (disp.map (fun r => r.timestamp))
                                    (disp.map (fun r => r.weight))
    let predTraces :=
      if show_prediction && !records.isEmpty then
        let xy := prepare_data sin2pi cos2pi sqrtF now records
        let fp := predict_future model xy.1 xy.2 now
        if fp.2.isEmpty then []
        else
          match disp.getLast? with
          | some last =>
              [Trace.forecast (last.timestamp :: fp.1) (last.weight :: fp.2)]
          | none => []
      else []
    actualTrace :: predTraces

/-- Embedding of WeightVisualizer.create_graph: the traces of both users
in plot order. -/
def create_graph (sin2pi cos2pi sqrtF : Rat → Rat)
    (model1 model2 : Nat → Rat → Rat) (now startT endT : Int)
    (show_prediction : Bool) (records1 records2 : List VizRecord) : List Trace :=
  userTraces sin2pi cos2pi sqrtF model1 now startT endT show_prediction records1 ++
  userTraces sin2pi cos2pi sqrtF model2 now startT endT show_prediction records2

/-!
### Theorems: Session Guard (C2, C3, C7)
-/

/-- C3: in the OPEN state (no lockout set), a failed authentication
attempt increments the count by 1; if the resulting count reaches 3 the
state locks until now + 15 minutes, otherwise no lockout is set. -/
theorem C3_open_failure_increments (now : Int) (s : AttemptState)
    (h : s.locked_until = none) :
    (increment_login_attempts now s).count = s.count + 1 ∧
    (3 ≤ s.count + 1 →
      (increment_login_attempts now s).locked_until = some (now + 15 * 60)) ∧
    (s.count + 1 < 3 →
      (increment_login_attempts now s).locked_until = none) := by
  unfold increment_login_attempts
  by_cases h3 : 3 ≤ s.count + 1
  · rw [if_pos h3]
    exact ⟨rfl, fun _ => rfl, fun h4 => absurd h3 (by omega)⟩
  · rw [if_neg h3]
    exact ⟨rfl, fun h4 => absurd h4 h3, fun _ => h⟩

/-- C3 witness: a second failure at count 1 leaves the state open, a
third failure at count 2 locks for 15 minutes. -/
theorem C3_open_failure_increments_witness :
    (increment_login_attempts 0 ⟨1, none⟩).count = 2 ∧
    (increment_login_attempts 0 ⟨1, none⟩).locked_until = none ∧
    (increment_login_attempts 0 ⟨2, none⟩).count = 3 ∧
    (increment_login_attempts 0 ⟨2, none⟩).locked_until = some 900 :=
  ⟨(C3_open_failure_increments 0 ⟨1, none⟩ rfl).1,
   (C3_open_failure_increments 0 ⟨1, none⟩ rfl).2.2 (by decide),
   (C3_open_failure_increments 0 ⟨2, none⟩ rfl).1,
   (C3_open_failure_increments 0 ⟨2, none⟩ rfl).2.1 (by decide)⟩

/-- C2: the reset-on-expiry transition exists only in
check_login_attempts, which no code calls; on the live login path, an
identity locked until time 1000 that fails an attempt at now = 1000
(lock expired) is incremented from count 3 to count 4 and immediately
re-locked for 15 minutes, instead of being reset to count 0 and treated
under OPEN rules. -/
theorem C2_expiry_reset_dead_code :
    check_login_attempts 1000 ⟨3, some 1000⟩ = (true, ⟨0, none⟩) ∧
    loginAttempt 1000 false ⟨3, some 1000⟩ =
      (LoginOutcome.lockedMsg 15, ⟨4, some 1900⟩) := by
  exact ⟨rfl, rfl⟩

/-- C7: while locked with now strictly before locked_until, the attempt
is refused with no state change (the login button is disabled, and the
uncalled checker also refuses), and the reported remaining minutes are
the truncating division of the remaining seconds by 60. -/
theorem C7_locked_refusal (now t : Int) (s : AttemptState) (authOk : Bool)
    (hl : s.locked_until = some t) (hn : now < t) :
    is_account_locked now s = true ∧
    loginAttempt now authOk s = (LoginOutcome.buttonDisabled, s) ∧
    check_login_attempts now s = (false, s) ∧
    get_remaining_lock_time now s = (t - now).toNat / 60 := by
  have hlock : is_account_locked now s = true := by
    unfold is_account_locked
    rw [hl]
    simp [hn]
  refine ⟨hlock, ?_, ?_, ?_⟩
  · unfold loginAttempt
    rw [hlock]
    simp
  · unfold check_login_attempts
    rw [hl]
    simp [hn]
  · unfold get_remaining_lock_time
    rw [hl]
    simp [hn]

/-- C7 witness: locked until second 90, an attempt at second 0 is
refused and 90 / 60 = 1 remaining minute is reported. -/
theorem C7_locked_refusal_witness :
    is_account_locked 0 ⟨3, some 90⟩ = true ∧
    loginAttempt 0 true ⟨3, some 90⟩ = (LoginOutcome.buttonDisabled, ⟨3, some 90⟩) ∧
    check_login_attempts 0 ⟨3, some 90⟩ = (false, ⟨3, some 90⟩) ∧
    get_remaining_lock_time 0 ⟨3, some 90⟩ = ((90 : Int) - 0).toNat / 60 :=
  C7_locked_refusal 0 90 ⟨3, some 90⟩ true rfl (by decide)

/-!
### Theorems: display labels (C8) and deserialization defaults (C10)
-/

/-- C8: the display-label lookup is total: every value outside the
enumerated set yields the unknown sentinel, and every enumerated value
yields its fixed label. -/
theorem C8_display_total (v : Rat) :
    (v ∉ WeightRecord.TIME_AFTER_MEAL_OPTIONS.map Prod.fst →
      WeightRecord.get_time_after_meal_display v = "不明") ∧
    (∀ p ∈ WeightRecord.TIME_AFTER_MEAL_OPTIONS,
      WeightRecord.get_time_after_meal_display p.1 = p.2) := by
  constructor
  · intro hv
    simp only [WeightRecord.TIME_AFTER_MEAL_OPTIONS, List.map_cons, List.map_nil,
      List.mem_cons, List.not_mem_nil, or_false, not_or] at hv
    obtain ⟨h1, h2, h3, h4, h5, h6, h7⟩ := hv
    simp only [WeightRecord.get_time_after_meal_display,
      WeightRecord.TIME_AFTER_MEAL_OPTIONS, lookupDisplay]
    rw [if_neg (fun h => h1 h.symm), if_neg (fun h => h2 h.symm),
      if_neg (fun h => h3 h.symm), if_neg (fun h => h4 h.symm),
      if_neg (fun h => h5 h.symm), if_neg (fun h => h6 h.symm),
      if_neg (fun h => h7 h.symm)]
  · intro p hp
    fin_cases hp <;> rfl

/-- C8 witness: 4 hours is outside the enumerated set and yields the
unknown sentinel; 1/2 hour yields its fixed label. -/
theorem C8_display_total_witness :
    WeightRecord.get_time_after_meal_display 4 = "不明" ∧
    WeightRecord.get_time_after_meal_display ratHalf = "30分" :=
  ⟨(C8_display_total 4).1 (by decide),
   (C8_display_total ratHalf).2 (ratHalf, "30分") (by decide)⟩

/-- C10: a stored mapping without the edited key whose remaining fields
are present and whose timestamp parses reads back successfully as an
unedited record. -/
theorem C10_missing_edited_defaults (d : RawDict) (w : Rat) (ts : String)
    (t : PyDateTime) (m : Rat)
    (hw : d.weight = some w) (hts : d.timestamp = some ts)
    (hparse : fromisoformat ts = some t) (hm : d.time_after_meal = some m)
    (he : d.edited = none) :
    WeightRecord.from_dict d = Except.ok ⟨w, t, m, false⟩ := by
  simp [WeightRecord.from_dict, hw, hts, hparse, hm, he]

/-- C10 witness: a concrete pre-edited-flag mapping reads back with
edited = false. -/
theorem C10_missing_edited_defaults_witness :
    WeightRecord.from_dict ⟨some 70, some "2024-03-15T07:05:09+09:00", some rat3Half, none⟩ =
      Except.ok ⟨70, ⟨2024, 3, 15, 7, 5, 9, 0, some 540⟩, rat3Half, false⟩ :=
  C10_missing_edited_defaults _ 70 "2024-03-15T07:05:09+09:00"
    ⟨2024, 3, 15, 7, 5, 9, 0, some 540⟩ rat3Half rfl rfl (by decide) rfl rfl

/-!
### Theorems: get_records error swallowing (C9) and ordering (C6)
-/

/-- Raised deserialization errors propagate out of the record loop. -/
theorem recordLoop_error_of_mem (sd ed : Option PyDateTime)
    (recs : List (String × RawDict)) (p : String × RawDict) (hp : p ∈ recs)
    (msg : String) (hf : WeightRecord.from_dict p.2 = Except.error msg) :
    ∃ m2, recordLoop sd ed recs = Except.error m2 := by
  induction recs with
  | nil => cases hp
  | cons head tail ih =>
    rcases List.mem_cons.mp hp with rfl | htail
    · obtain ⟨rid, data⟩ := p
      refine ⟨msg, ?_⟩
      unfold recordLoop
      rw [hf]
      rfl
    · obtain ⟨m2, h2⟩ := ih htail
      obtain ⟨rid, data⟩ := head
      cases hfd : WeightRecord.from_dict data with
      | error e =>
        refine ⟨e, ?_⟩
        unfold recordLoop
        rw [hfd]
        rfl
      | ok r =>
        refine ⟨m2, ?_⟩
        unfold recordLoop
        rw [hfd, h2]
        rfl

/-- C9: a store read error yields the empty list, a missing reference
yields the empty list, a failed read is indistinguishable from an empty
store, and a single raised deserialization error empties the whole
result. -/
theorem C9_store_errors_yield_empty (e : String) (sd ed : Option PyDateTime) :
    get_records (Except.error e) sd ed = [] ∧
    get_records (Except.ok none) sd ed = [] ∧
    get_records (Except.error e) sd ed = get_records (Except.ok (some [])) sd ed ∧
    ∀ recs : List (String × RawDict),
      (∃ p ∈ recs, ∃ msg, WeightRecord.from_dict p.2 = Except.error msg) →
      get_records (Except.ok (some recs)) sd ed = [] := by
  refine ⟨rfl, rfl, rfl, ?_⟩
  rintro recs ⟨p, hp, msg, hf⟩
  obtain ⟨m2, h2⟩ := recordLoop_error_of_mem sd ed recs p hp msg hf
  have hg : get_records (Except.ok (some recs)) sd ed =
      match recordLoop sd ed recs with
      | Except.error _ => []
      | Except.ok l =>
          sortedStable (fun a b => dtLe a.2.timestamp b.2.timestamp) l := rfl
  rw [hg, h2]

/-- C9 witness: a record whose mapping lacks the weight key makes the
whole read come back empty. -/
theorem C9_store_errors_yield_empty_witness :
    get_records (Except.ok (some [("a", ⟨none, none, none, none⟩)])) none none = [] :=
  (C9_store_errors_yield_empty "store unavailable" none none).2.2.2
    [("a", ⟨none, none, none, none⟩)]
    ⟨("a", ⟨none, none, none, none⟩), by simp, "KeyError: weight", rfl⟩

/-- Numeral value of a rendered digit. -/
theorem digitChar_toNat (n : Nat) (h : n < 10) : (digitChar n).toNat = 48 + n := by
  interval_cases n <;> rfl

/-- Parsing inverts rendering for one digit. -/
theorem readDigit_digitChar (n : Nat) (h : n < 10) :
    readDigit (digitChar n) = some n := by
  unfold readDigit
  rw [digitChar_toNat n h, if_pos (by omega)]
  congr 1
  omega

/-- Parsing inverts rendering for two-digit numbers. -/
theorem read2_pad2 (n : Nat) (h : n < 100) (rest : List Char) :
    read2 (pad2 n ++ rest) = some (n, rest) := by
  have h1 : n / 10 < 10 := by omega
  have h2 : n % 10 < 10 := by omega
  have hn : n / 10 * 10 + n % 10 = n := by omega
  simp only [pad2, List.cons_append, List.nil_append, read2,
    readDigit_digitChar _ h1, readDigit_digitChar _ h2]
  simp only [Option.bind_eq_bind, Option.some_bind, pure]
  rw [hn]

/-- Two-digit parse at the end of the input. -/
theorem read2_pad2_nil (n : Nat) (h : n < 100) :
    read2 (pad2 n) = some (n, []) := by
  rw [show pad2 n = pad2 n ++ [] from (List.append_nil _).symm, read2_pad2 n h]

/-- Parsing inverts rendering for four-digit numbers. -/
theorem read4_pad4 (n : Nat) (h : n < 10000) (rest : List Char) :
    read4 (pad4 n ++ rest) = some (n, rest) := by
  have h1 : n / 100 < 100 := by omega
  have h2 : n % 100 < 100 := by omega
  have hn : n / 100 * 100 + n % 100 = n := by omega
  simp only [pad4, read4, List.append_assoc, read2_pad2 _ h1]
  simp only [Option.bind_eq_bind, Option.some_bind, pure]
  simp only [read2_pad2 _ h2, Option.bind_eq_bind, Option.some_bind]
  rw [hn]

/-- The expected-character reader accepts its character. -/
theorem readExact_cons (c : Char) (rest : List Char) :
    readExact c (c :: rest) = some rest := by
  simp [readExact]

/-- No fractional part at the end of the input. -/
theorem readFraction_nil : readFraction [] = some (0, []) := rfl

/-- No fractional part before a positive-offset suffix. -/
theorem readFraction_plus (cs : List Char) :
    readFraction ('+' :: cs) = some (0, '+' :: cs) := rfl

/-- No fractional part before a negative-offset suffix. -/
theorem readFraction_minus (cs : List Char) :
    readFraction ('-' :: cs) = some (0, '-' :: cs) := rfl

/-- An exhausted input yields a naive datetime. -/
theorem readOffset_nil : readOffset [] = some none := rfl

/-- Parsing inverts rendering of a nonnegative offset suffix. -/
theorem readOffset_sign_plus (hh hm : Nat) (h1 : hh ≤ 23) (h2 : hm ≤ 59) :
    readOffset ('+' :: (pad2 hh ++ ':' :: pad2 hm)) =
      some (some ((hh * 60 + hm : Nat) : Int)) := by
  simp only [readOffset]
  rw [if_pos (Or.inl trivial)]
  simp only [read2_pad2 hh (by omega), readExact_cons, Option.bind_eq_bind,
    Option.some_bind]
  simp only [read2_pad2_nil hm (by omega), Option.some_bind]
  rw [if_pos ⟨h2, by omega⟩, if_neg (by decide)]

/-- Parsing inverts rendering of a negative offset suffix. -/
theorem readOffset_sign_minus (hh hm : Nat) (h1 : hh ≤ 23) (h2 : hm ≤ 59) :
    readOffset ('-' :: (pad2 hh ++ ':' :: pad2 hm)) =
      some (some (-((hh * 60 + hm : Nat) : Int))) := by
  simp only [readOffset]
  rw [if_pos (Or.inr trivial)]
  simp only [read2_pad2 hh (by omega), readExact_cons, Option.bind_eq_bind,
    Option.some_bind]
  simp only [read2_pad2_nil hm (by omega), Option.some_bind]
  rw [if_pos ⟨h2, by omega⟩, if_pos trivial]

/-- Every month has at most 31 days. -/
theorem daysInMonth_le (y m : Nat) : daysInMonth y m ≤ 31 := by
  unfold daysInMonth
  split_ifs <;> omega

/-- Dropping microseconds preserves constructor validity. -/
theorem valid_replaceMicrosecond0 (t : PyDateTime) (hv : t.valid = true) :
    t.replaceMicrosecond0.valid = true := by
  obtain ⟨y, mo, d, h, mi, s, us, tz⟩ := t
  have hr : PyDateTime.replaceMicrosecond0 ⟨y, mo, d, h, mi, s, us, tz⟩ =
      ⟨y, mo, d, h, mi, s, 0, tz⟩ := rfl
  rw [hr]
  cases tz with
  | none =>
    simp only [PyDateTime.valid, Bool.and_eq_true, decide_eq_true_eq,
      eq_self_iff_true, and_true] at hv ⊢
    omega
  | some off =>
    simp only [PyDateTime.valid, Bool.and_eq_true, decide_eq_true_eq,
      eq_self_iff_true, and_true] at hv ⊢
    omega

set_option maxHeartbeats 2000000 in
/-- Parsing inverts printing: fromisoformat applied to the isoformat of a
valid second-precision datetime recovers it exactly. -/
theorem fromisoformatList_isoformatList (t : PyDateTime)
    (hv : t.valid = true) (hus : t.microsecond = 0) :
    fromisoformatList (isoformatList t) = some t := by
  have hvb := hv
  have hdm := daysInMonth_le t.year t.month
  cases htz : t.tzOffsetMinutes with
  | none =>
    simp only [PyDateTime.valid, htz, Bool.and_eq_true, decide_eq_true_eq] at hv
    unfold isoformatList
    rw [if_pos hus, htz]
    simp only [List.cons_append, List.nil_append, List.append_assoc, List.append_nil]
    unfold fromisoformatList
    simp only [read4_pad4 t.year (by omega),
      read2_pad2 t.month (by omega), read2_pad2 t.day (by omega),
      read2_pad2 t.hour (by omega), read2_pad2 t.minute (by omega),
      read2_pad2_nil t.second (by omega),
      readExact_cons, readFraction_nil, readOffset_nil,
      Option.bind_eq_bind, Option.some_bind, pure]
    have ht : (⟨t.year, t.month, t.day, t.hour, t.minute, t.second, 0, none⟩ :
        PyDateTime) = t := by
      rw [← hus, ← htz]
    rw [ht, if_pos hvb]
  | some off =>
    simp only [PyDateTime.valid, htz, Bool.and_eq_true, decide_eq_true_eq] at hv
    unfold isoformatList
    rw [if_pos hus, htz]
    dsimp only
    unfold offsetChars
    by_cases hneg : off < 0
    · rw [if_pos hneg]
      simp only [List.cons_append, List.nil_append, List.append_assoc, List.append_nil]
      unfold fromisoformatList
      simp only [read4_pad4 t.year (by omega),
        read2_pad2 t.month (by omega), read2_pad2 t.day (by omega),
        read2_pad2 t.hour (by omega), read2_pad2 t.minute (by omega),
        read2_pad2 t.second (by omega),
        readExact_cons, readFraction_minus,
        readOffset_sign_minus (off.natAbs / 60) (off.natAbs % 60)
          (by omega) (by omega),
        Option.bind_eq_bind, Option.some_bind, pure]
      have hoffeq : -(((off.natAbs / 60 * 60 + off.natAbs % 60 : Nat) : Int)) = off := by
        omega
      rw [hoffeq]
      have ht : (⟨t.year, t.month, t.day, t.hour, t.minute, t.second, 0, some off⟩ :
          PyDateTime) = t := by
        rw [← hus, ← htz]
      rw [ht, if_pos hvb]
    · rw [if_neg hneg]
      simp only [List.cons_append, List.nil_append, List.append_assoc, List.append_nil]
      unfold fromisoformatList
      simp only [read4_pad4 t.year (by omega),
        read2_pad2 t.month (by omega), read2_pad2 t.day (by omega),
        read2_pad2 t.hour (by omega), read2_pad2 t.minute (by omega),
        read2_pad2 t.second (by omega),
        readExact_cons, readFraction_plus,
        readOffset_sign_plus (off.natAbs / 60) (off.natAbs % 60)
          (by omega) (by omega),
        Option.bind_eq_bind, Option.some_bind, pure]
      have hoffeq : (((off.natAbs / 60 * 60 + off.natAbs % 60 : Nat) : Int)) = off := by
        omega
      rw [hoffeq]
      have ht : (⟨t.year, t.month, t.day, t.hour, t.minute, t.second, 0, some off⟩ :
          PyDateTime) = t := by
        rw [← hus, ← htz]
      rw [ht, if_pos hvb]

/-- C5: serializing any valid record, reading it back, and serializing
again reproduces the first serialization exactly: the timestamp
round-trips losslessly through ISO-8601 at second precision. -/
theorem C5_serialize_roundtrip (r : WeightRecord)
    (hw : 0 < r.weight)
    (hm : r.time_after_meal ∈ WeightRecord.TIME_AFTER_MEAL_OPTIONS.map Prod.fst)
    (hts : r.timestamp.valid = true)
    (haware : r.timestamp.tzOffsetMinutes ≠ none) :
    (WeightRecord.from_dict r.to_dict).map WeightRecord.to_dict =
      Except.ok r.to_dict := by
  have hv0 : r.timestamp.replaceMicrosecond0.valid = true :=
    valid_replaceMicrosecond0 _ hts
  have hparse : fromisoformat r.timestamp.replaceMicrosecond0.isoformat =
      some r.timestamp.replaceMicrosecond0 := by
    unfold fromisoformat PyDateTime.isoformat
    exact fromisoformatList_isoformatList _ hv0 rfl
  have hfd : WeightRecord.from_dict r.to_dict = Except.ok
      ⟨r.weight, r.timestamp.replaceMicrosecond0, r.time_after_meal, r.edited⟩ := by
    simp [WeightRecord.from_dict, WeightRecord.to_dict, hparse]
  rw [hfd]
  rfl

/-- C5 witness: a concrete record with microseconds and a +09:00 offset
round-trips at second precision. -/
theorem C5_serialize_roundtrip_witness :
    (WeightRecord.from_dict (WeightRecord.to_dict
        ⟨70, ⟨2024, 3, 15, 7, 5, 9, 123456, some 540⟩, rat3Half, false⟩)).map
      WeightRecord.to_dict =
    Except.ok (WeightRecord.to_dict
        ⟨70, ⟨2024, 3, 15, 7, 5, 9, 123456, some 540⟩, rat3Half, false⟩) :=
  C5_serialize_roundtrip ⟨70, ⟨2024, 3, 15, 7, 5, 9, 123456, some 540⟩, rat3Half, false⟩
    (by decide) (by decide) (by decide) (by decide)
